import Mathlib

/-!
Verification of the Pathfinder parking recommendation system.

The repository has two backend variants:
* `backend/realtime_parking_system.py` (namespace `RTS` below): the WebSocket
  app with the balanced scorer, the recommendation ledger and the
  availability-change dispatcher.
* `backend/parking_finder_v2.py` (namespace `PFV2` below): the HTTP app with
  the alpha-weighted scorer and the throttled navigation simulation.

Python floats are modelled as real numbers, Python ints as integers, and the
mutable module-level state (catalog, ledger, users) is passed explicitly.
The notification sink (socketio.emit / print) is modelled by returning the
list of emitted events; the human-readable message strings are abstracted to
the event kind and the data the events carry.
-/

/-- Shallow embedding of `math.radians`: degrees to radians. -/
noncomputable def radians (deg : ℝ) : ℝ := deg * Real.pi / 180

/-- Shallow embedding of `math.atan2` (four-quadrant arctangent) on reals. -/
noncomputable def atan2 (y x : ℝ) : ℝ :=
  if 0 < x then Real.arctan (y / x)
  else if x < 0 then
    (if 0 ≤ y then Real.arctan (y / x) + Real.pi else Real.arctan (y / x) - Real.pi)
  else
    (if 0 < y then Real.pi / 2 else if y < 0 then -(Real.pi / 2) else 0)

/-- The `haversine` function, defined identically (line for line) in
`realtime_parking_system.py` and `parking_finder_v2.py`: great-circle
distance in meters between two (latitude, longitude) pairs in degrees. -/
noncomputable def haversine (lat1 lon1 lat2 lon2 : ℝ) : ℝ :=
  let R : ℝ := 6371000
  let phi1 := radians lat1
  let phi2 := radians lat2
  let dphi := radians (lat2 - lat1)
  let dlambda := radians (lon2 - lon1)
  let a := Real.sin (dphi / 2) ^ 2 +
    Real.cos phi1 * Real.cos phi2 * Real.sin (dlambda / 2) ^ 2
  let c := 2 * atan2 (Real.sqrt a) (Real.sqrt (1 - a))
  R * c

theorem arctan_nonneg_of_nonneg {x : ℝ} (hx : 0 ≤ x) : 0 ≤ Real.arctan x := by
  rcases eq_or_lt_of_le hx with h | h
  · rw [← h, Real.arctan_zero]
  · have h2 := Real.arctan_strictMono h
    rw [Real.arctan_zero] at h2
    exact h2.le

theorem atan2_nonneg {y x : ℝ} (hy : 0 ≤ y) (hx : 0 ≤ x) : 0 ≤ atan2 y x := by
  unfold atan2
  split_ifs with h1 h2 h3 h4
  · exact arctan_nonneg_of_nonneg (div_nonneg hy h1.le)
  all_goals linarith [Real.pi_pos]

theorem haversine_nonneg (lat1 lon1 lat2 lon2 : ℝ) :
    0 ≤ haversine lat1 lon1 lat2 lon2 := by
  simp only [haversine]
  have h := atan2_nonneg (Real.sqrt_nonneg (Real.sin (radians (lat2 - lat1) / 2) ^ 2 +
      Real.cos (radians lat1) * Real.cos (radians lat2) *
        Real.sin (radians (lon2 - lon1) / 2) ^ 2))
    (Real.sqrt_nonneg (1 - (Real.sin (radians (lat2 - lat1) / 2) ^ 2 +
      Real.cos (radians lat1) * Real.cos (radians lat2) *
        Real.sin (radians (lon2 - lon1) / 2) ^ 2)))
  positivity

theorem hav_key (lat1 lon1 lat2 lon2 : ℝ) :
    Real.sin (radians (lat2 - lat1) / 2) ^ 2 +
      Real.cos (radians lat1) * Real.cos (radians lat2) *
        Real.sin (radians (lon2 - lon1) / 2) ^ 2 =
    Real.sin (radians (lat1 - lat2) / 2) ^ 2 +
      Real.cos (radians lat2) * Real.cos (radians lat1) *
        Real.sin (radians (lon1 - lon2) / 2) ^ 2 := by
  have hlat : radians (lat2 - lat1) / 2 = -(radians (lat1 - lat2) / 2) := by
    simp only [radians]; ring
  have hlon : radians (lon2 - lon1) / 2 = -(radians (lon1 - lon2) / 2) := by
    simp only [radians]; ring
  rw [hlat, hlon, Real.sin_neg, Real.sin_neg]
  ring

theorem haversine_symm (lat1 lon1 lat2 lon2 : ℝ) :
    haversine lat1 lon1 lat2 lon2 = haversine lat2 lon2 lat1 lon1 := by
  simp only [haversine]
  rw [hav_key]

theorem haversine_self (lat lon : ℝ) : haversine lat lon lat lon = 0 := by
  simp only [haversine, radians, sub_self, zero_mul, zero_div, Real.sin_zero]
  norm_num [atan2, Real.sqrt_one, Real.arctan_zero]

theorem haversine_pole : haversine 90 0 90 1 = 0 := by
  have h90 : radians 90 = Real.pi / 2 := by simp only [radians]; ring
  have h0 : radians (90 - 90) = 0 := by norm_num [radians]
  simp only [haversine]
  rw [h0, h90]
  norm_num [Real.cos_pi_div_two, Real.sin_zero, Real.sqrt_one, atan2, Real.arctan_zero]

namespace RTS

/-- One entry of the `parking_spots` catalog of `realtime_parking_system.py`.
Display-only fields (`address`, `type`, `payment_methods`) are omitted:
no control flow in the backend reads them. -/
structure Garage where
  name : String
  lat : ℝ
  lng : ℝ
  price_per_hour : ℝ
  total_spots : ℤ
  available_spots : ℤ

/-- The `users_db` mapping, restricted to the one field the recommendation
engine reads: `username ↦ price_weight`. -/
abbrev UsersDb := List (String × ℝ)

/-- The price-weight resolution performed at the top of `find_best_garage`
and `find_top_garages`: `price_weight = 0.3`, overridden by
`users_db[username].get('price_weight', 0.3)` when `username` is truthy
and present in `users_db`. -/
def get_price_weight (users : UsersDb) (username : Option String) : ℝ :=
  match username with
  | none => 0.3
  | some u => if u ≠ "" then (List.lookup u users).getD 0.3 else 0.3

/-- The balanced scorer `score_parking` of `realtime_parking_system.py`:
returns `(score, drive_distance, walk_distance)`. -/
noncomputable def score_parking (garage : Garage)
    (user_lat user_lng dest_lat dest_lng price_weight : ℝ) : ℝ × ℝ × ℝ :=
  let drive_distance := haversine user_lat user_lng garage.lat garage.lng
  let walk_distance := haversine garage.lat garage.lng dest_lat dest_lng
  let total_distance := drive_distance + walk_distance * 2
  let price := garage.price_per_hour
  let availability_factor := if 20 < garage.available_spots then (1.0 : ℝ) else 1.5
  let score := ((1 - price_weight) * total_distance + price_weight * price * 100) *
    availability_factor
  (score, drive_distance, walk_distance)

/-- `find_best_garage`: scans the garages with `available_spots > 0` and keeps
the strictly best (lowest) score.  The Python version starts from
`best_score = float('inf')`, `best_garage = None` and returns `None, 0, 0`
when no garage is available; the accumulator `Option` plays the role of the
infinite initial score. -/
noncomputable def find_best_garage (users : UsersDb) (username : Option String)
    (parking_spots : List Garage) (user_lat user_lng dest_lat dest_lng : ℝ) :
    Option (Garage × ℝ × ℝ) :=
  let price_weight := get_price_weight users username
  let available_garages := parking_spots.filter fun g => decide (0 < g.available_spots)
  (available_garages.foldl
    (fun best g =>
      let s := score_parking g user_lat user_lng dest_lat dest_lng price_weight
      match best with
      | none => some (s.1, g, s.2.1, s.2.2)
      | some b => if s.1 < b.1 then some (s.1, g, s.2.1, s.2.2) else some b)
    none).map fun b => (b.2.1, b.2.2.1, b.2.2.2)

/-- `find_top_garages`: scores every available garage, sorts ascending by
score and returns the first `n` tuples `(score, garage, drive, walk)`.
Python's `list.sort` is a stable sort, modelled by `List.mergeSort`. -/
noncomputable def find_top_garages (users : UsersDb) (username : Option String)
    (parking_spots : List Garage) (user_lat user_lng dest_lat dest_lng : ℝ)
    (n : ℕ) : List (ℝ × Garage × ℝ × ℝ) :=
  let price_weight := get_price_weight users username
  let available_garages := parking_spots.filter fun g => decide (0 < g.available_spots)
  if available_garages.isEmpty then []
  else
    let scored := available_garages.map fun g =>
      let s := score_parking g user_lat user_lng dest_lat dest_lng price_weight
      (s.1, g, s.2.1, s.2.2)
    (scored.mergeSort fun a b => decide (a.1 ≤ b.1)).take n

end RTS

namespace RTS

/-- One value of the `user_recommendations` dict: the ActiveRecommendation
ledger entry stored per session. -/
structure Rec where
  username : Option String
  garage_name : String
  timestamp : ℝ
  user_lat : ℝ
  user_lng : ℝ
  dest_lat : ℝ
  dest_lng : ℝ
  duration : ℝ
  walk_distance : ℝ

/-- The `user_recommendations` dict: insertion-ordered association list of
session id to ledger entry, as a Python dict is. -/
abbrev Ledger := List (String × Rec)

/-- The notifications pushed through `socketio.emit` / `emit`, abstracted to
their kind and the payload fields the backend computes.  Human-readable
message strings are not modelled. -/
inductive Event where
  | invalidData (sid : String)
  | noParking (sid : String)
  | warning (sid : String) (garage : String) (spots_remaining : ℤ)
  | reroute (sid : String) (new_garage : String) (new_walk : ℝ)
  | recommendation (sid : String) (best : String) (estimated_cost : ℝ)
      (alternatives : List (String × ℝ))

/-- The session an event is addressed to (the `room=session_id` argument). -/
def Event.sid : Event → String
  | .invalidData s => s
  | .noParking s => s
  | .warning s _ _ => s
  | .reroute s _ _ => s
  | .recommendation s _ _ _ => s

/-- Events of the given session, in emission order. -/
def eventsFor (sid : String) (evs : List Event) : List Event :=
  evs.filter fun e => decide (e.sid = sid)

/-- In-place update of one session's ledger entry
(`user_recommendations[session_id].update({...})`): a Python dict update
keeps the key's position. -/
def updateLedger (ledger : Ledger) (sid : String) (r : Rec) : Ledger :=
  ledger.map fun e => if e.1 = sid then (sid, r) else e

/-- `user_recommendations[session_id] = {...}`: replace in place if the key
exists, append otherwise (Python dict assignment). -/
def upsert (ledger : Ledger) (sid : String) (r : Rec) : Ledger :=
  if ledger.any (fun e => decide (e.1 = sid)) then updateLedger ledger sid r
  else ledger ++ [(sid, r)]

/-- `user_recommendations.get(session_id)`. -/
def lookupRec (ledger : Ledger) (sid : String) : Option Rec :=
  (ledger.find? fun e => decide (e.1 = sid)).map Prod.snd

/-- `send_reroute_notification`: recompute the best garage from the stored
trip; on total unavailability emit the "no parking available" error and leave
the entry alone; otherwise emit the reroute notification and produce the
updated ledger entry (new garage name, refreshed timestamp, new walk
distance).  The `next(...)` lookup of the old garage yields no emission and
no update when the old name is not in the catalog.  The returned
`Option Rec` is the in-place update this call performs on
`user_recommendations[session_id]`. -/
noncomputable def send_reroute_notification (users : UsersDb)
    (parking_spots : List Garage) (session_id : String) (old_rec : Rec)
    (now : ℝ) : List Event × Option Rec :=
  match find_best_garage users old_rec.username parking_spots
      old_rec.user_lat old_rec.user_lng old_rec.dest_lat old_rec.dest_lng with
  | none => ([Event.noParking session_id], none)
  | some (new_garage, _new_drive, new_walk) =>
    match parking_spots.find? (fun g => decide (g.name = old_rec.garage_name)) with
    | none => ([], none)
    | some _old_garage =>
      ([Event.reroute session_id new_garage.name new_walk],
       some { old_rec with
                garage_name := new_garage.name
                timestamp := now
                walk_distance := new_walk })

/-- `check_user_recommendations`: for every snapshot ledger entry, skip it if
older than 300 time units; when it points at the changed garage, dispatch a
forced reroute if the garage is now full, or a low-availability warning if
availability dropped below 5 from at least 5.  Returns the emitted events
and the ledger after the in-place updates done by the reroute path. -/
noncomputable def check_body (users : UsersDb) (parking_spots : List Garage)
    (changed_garage : Garage) (old_available : ℤ) (current_time : ℝ)
    (acc : List Event × Ledger) (e : String × Rec) : List Event × Ledger :=
  let r := e.2
  if current_time - r.timestamp > 300 then acc
  else if r.garage_name = changed_garage.name then
    if changed_garage.available_spots = 0 then
      let res := send_reroute_notification users parking_spots e.1 r current_time
      (acc.1 ++ res.1,
       match res.2 with
       | some nr => updateLedger acc.2 e.1 nr
       | none => acc.2)
    else if changed_garage.available_spots < 5 ∧ 5 ≤ old_available then
      (acc.1 ++ [Event.warning e.1 changed_garage.name changed_garage.available_spots],
       acc.2)
    else acc
  else acc

noncomputable def check_user_recommendations (users : UsersDb)
    (parking_spots : List Garage) (changed_garage : Garage)
    (old_available : ℤ) (current_time : ℝ)
    (user_recommendations : Ledger) : List Event × Ledger :=
  user_recommendations.foldl
    (check_body users parking_spots changed_garage old_available current_time)
    ([], user_recommendations)

/-- The availability update applied to each garage by one `simulate_spots`
tick: add the random delta and clamp into `[0, total_spots]`. -/
def adjust_spot (garage : Garage) (change : ℤ) : Garage :=
  { garage with
      available_spots := max 0 (min garage.total_spots (garage.available_spots + change)) }

/-- One `simulate_spots` tick over the whole catalog, with the random deltas
supplied as an oracle. -/
def simulate_spots_tick (delta : Garage → ℤ) (parking_spots : List Garage) :
    List Garage :=
  parking_spots.map fun g => adjust_spot g (delta g)

/-- A field of the incoming `request_parking` JSON payload: absent,
present but not convertible by `float(...)`, or a number. -/
inductive RawField where
  | absent
  | malformed
  | num (x : ℝ)

/-- The payload of a `request_parking` socket message. -/
structure RequestData where
  user_lat : RawField
  user_lng : RawField
  dest_lat : RawField
  dest_lng : RawField
  duration : RawField

/-- `float(data.get(k))`: `data.get` yields `None` for an absent key and
`float` raises on `None` or a malformed value. -/
def parseFloat : RawField → Option ℝ
  | .num x => some x
  | _ => none

/-- The `try` block of `handle_parking_request`: the four coordinates via
`float(data.get(k))` and the duration via `float(data.get("duration", 1))`;
any raise is caught by the `except (TypeError, ValueError)` handler. -/
def parse_request (data : RequestData) : Option (ℝ × ℝ × ℝ × ℝ × ℝ) :=
  match parseFloat data.user_lat, parseFloat data.user_lng,
      parseFloat data.dest_lat, parseFloat data.dest_lng,
      (match data.duration with
       | .absent => some 1
       | .malformed => none
       | .num x => some x) with
  | some a, some b, some c, some d, some e => some (a, b, c, d, e)
  | _, _, _, _, _ => none

/-- `handle_parking_request`: parse, find the best garage, build the
alternatives from `find_top_garages(...)[1:]`, store the recommendation in
the ledger and emit it.  Display rounding (`round(x, 2)`) and the
human-readable alternative reasons are not modelled. -/
noncomputable def handle_parking_request (users : UsersDb)
    (parking_spots : List Garage) (user_recommendations : Ledger)
    (session_id : String) (username : Option String) (data : RequestData)
    (now : ℝ) : List Event × Ledger :=
  match parse_request data with
  | none => ([Event.invalidData session_id], user_recommendations)
  | some (user_lat, user_lng, dest_lat, dest_lng, duration) =>
    match find_best_garage users username parking_spots
        user_lat user_lng dest_lat dest_lng with
    | none => ([Event.noParking session_id], user_recommendations)
    | some (best_garage, _best_drive, best_walk) =>
      let top_garages := find_top_garages users username parking_spots
        user_lat user_lng dest_lat dest_lng 3
      let alternatives := (top_garages.drop 1).map fun t =>
        (t.2.1.name, t.2.1.price_per_hour * duration)
      let r : Rec := ⟨username, best_garage.name, now, user_lat, user_lng,
        dest_lat, dest_lng, duration, best_walk⟩
      ([Event.recommendation session_id best_garage.name
          (best_garage.price_per_hour * duration) alternatives],
       upsert user_recommendations session_id r)

end RTS

namespace PFV2

/-- One entry of the `parking_spots` catalog of `parking_finder_v2.py`.
Display-only fields (`address`, `type`, `payment_methods`, `hours`) are
omitted: no control flow reads them. -/
structure Spot where
  name : String
  lat : ℝ
  lng : ℝ
  price_per_hour : ℝ
  capacity : ℤ
  available_spots : ℤ

/-- The alpha-weighted scorer `score_parking` of `parking_finder_v2.py`:
`distance` is the distance from the spot to the destination, and the result
is the bare score (no distance components are returned). -/
noncomputable def score_parking (parking : Spot) (dest_lat dest_lng alpha : ℝ) : ℝ :=
  let distance := haversine parking.lat parking.lng dest_lat dest_lng
  let price := parking.price_per_hour
  let availability_factor := if 20 < parking.available_spots then (1.0 : ℝ) else 1.5
  (alpha * distance + (1 - alpha) * price * 100) * availability_factor

/-- `find_top_parking`: filter the spots with `available_spots > 0`, score
them with the default `alpha = 0.5` (all call sites use the default), sort
ascending by score (Python's stable `list.sort`, modelled by
`List.mergeSort`) and return the first `n` as `(spot, score)` pairs. -/
noncomputable def find_top_parking (parking_spots : List Spot)
    (dest_lat dest_lng : ℝ) (n : ℕ) : List (Spot × ℝ) :=
  let available_spots := parking_spots.filter fun p => decide (0 < p.available_spots)
  if available_spots.isEmpty then []
  else
    let scored := available_spots.map fun p =>
      (score_parking p dest_lat dest_lng 0.5, p)
    ((scored.mergeSort fun a b => decide (a.1 ≤ b.1)).take n).map fun t => (t.2, t.1)

/-- The availability update applied by one `simulate_parking_changes` tick
to the randomly chosen spot: add the delta and clamp into `[0, capacity]`. -/
def adjust_spot (spot : Spot) (change : ℤ) : Spot :=
  { spot with
      available_spots := max 0 (min spot.capacity (spot.available_spots + change)) }

/-- The loop-carried state of `simulate_user_navigation`: the user's moving
position, the last recommended spot and the time of the last notification. -/
structure NavState where
  lat : ℝ
  lng : ℝ
  last_recommended : Option Spot
  last_notification_time : ℝ

/-- The console notifications printed by `simulate_user_navigation`,
abstracted to their kind. -/
inductive NavEvent where
  | noParkingAlert
  | rerouteFull (new_name : String)
  | rerouteDeal (new_name : String) (savings : ℝ)
  | initialRec (new_name : String)

/-- One iteration of the `simulate_user_navigation` while-loop body (entered
when the user has not yet arrived): recompute the top spots, decide whether
to print a reroute notification — the forced path when the old spot became
unavailable, the better-deal path when the new best is more than 200 m of
driving away and saves more than $1 — both gated by the 10-unit cooldown,
then remember the best spot and move the user 8% closer to the destination.
When no parking is available at all, the body prints an alert and `continue`s
without moving or updating the recommendation. -/
noncomputable def simulate_user_navigation_step (parking_spots : List Spot)
    (dest_lat dest_lng duration : ℝ) (s : NavState) (current_time : ℝ) :
    List NavEvent × NavState :=
  match find_top_parking parking_spots dest_lat dest_lng 3 with
  | [] => ([NavEvent.noParkingAlert], s)
  | (best, _score) :: _ =>
    let notified : List NavEvent × ℝ :=
      match s.last_recommended with
      | none => ([NavEvent.initialRec best.name], s.last_notification_time)
      | some old =>
        if best.name ≠ old.name then
          let old_still_available := parking_spots.any fun p =>
            decide (p.name = old.name ∧ 0 < p.available_spots)
          let distance_to_current := haversine s.lat s.lng best.lat best.lng
          let should : Option NavEvent :=
            if ¬ old_still_available then some (NavEvent.rerouteFull best.name)
            else if distance_to_current > 200 then
              (let old_cost := old.price_per_hour * duration
               let new_cost := best.price_per_hour * duration
               let cost_savings := old_cost - new_cost
               if cost_savings > 1.0 then
                 some (NavEvent.rerouteDeal best.name cost_savings)
               else none)
            else none
          should.elim ([], s.last_notification_time) fun ev =>
            if current_time - s.last_notification_time > 10
            then ([ev], current_time)
            else ([], s.last_notification_time)
        else ([], s.last_notification_time)
    (notified.1,
     { lat := s.lat + (dest_lat - s.lat) * 0.08
       lng := s.lng + (dest_lng - s.lng) * 0.08
       last_recommended := some best
       last_notification_time := notified.2 })

end PFV2

namespace RTS

/-- "Garage A" from the catalog of `realtime_parking_system.py`. -/
def garageA : Garage := ⟨"Garage A", 40.4405, -79.9959, 3.0, 100, 45⟩

/-- The scored candidate list built inside `find_top_garages` before
sorting: every available garage, in catalog order, with its score and
distances. -/
noncomputable def scored_garages (users : UsersDb) (username : Option String)
    (parking_spots : List Garage) (user_lat user_lng dest_lat dest_lng : ℝ) :
    List (ℝ × Garage × ℝ × ℝ) :=
  (parking_spots.filter fun g => decide (0 < g.available_spots)).map fun g =>
    let s := score_parking g user_lat user_lng dest_lat dest_lng
      (get_price_weight users username)
    (s.1, g, s.2.1, s.2.2)

theorem find_top_garages_eq (users : UsersDb) (username : Option String)
    (parking_spots : List Garage) (user_lat user_lng dest_lat dest_lng : ℝ)
    (n : ℕ) :
    find_top_garages users username parking_spots user_lat user_lng dest_lat
        dest_lng n =
      ((scored_garages users username parking_spots user_lat user_lng dest_lat
          dest_lng).mergeSort fun a b => decide (a.1 ≤ b.1)).take n := by
  simp only [find_top_garages, scored_garages]
  rcases h : (parking_spots.filter fun g => decide (0 < g.available_spots)).isEmpty with _ | _
  · simp [h]
  · rw [List.isEmpty_iff] at h
    simp [h]

theorem find_top_garages_mem_available (users : UsersDb)
    (username : Option String) (parking_spots : List Garage)
    (user_lat user_lng dest_lat dest_lng : ℝ) (n : ℕ) :
    ∀ t ∈ find_top_garages users username parking_spots user_lat user_lng
        dest_lat dest_lng n, 0 < t.2.1.available_spots := by
  intro t ht
  rw [find_top_garages_eq] at ht
  have h2 := List.mem_mergeSort.mp (List.mem_of_mem_take ht)
  simp only [scored_garages, List.mem_map] at h2
  obtain ⟨g, hg, rfl⟩ := h2
  exact of_decide_eq_true (List.mem_filter.mp hg).2

end RTS

namespace PFV2

/-- The scored candidate list built inside `find_top_parking` before
sorting. -/
noncomputable def scored_spots (parking_spots : List Spot)
    (dest_lat dest_lng : ℝ) : List (ℝ × Spot) :=
  (parking_spots.filter fun p => decide (0 < p.available_spots)).map fun p =>
    (score_parking p dest_lat dest_lng 0.5, p)

theorem find_top_parking_eq (parking_spots : List Spot)
    (dest_lat dest_lng : ℝ) (n : ℕ) :
    find_top_parking parking_spots dest_lat dest_lng n =
      (((scored_spots parking_spots dest_lat dest_lng).mergeSort
          fun a b => decide (a.1 ≤ b.1)).take n).map fun t => (t.2, t.1) := by
  simp only [find_top_parking, scored_spots]
  rcases h : (parking_spots.filter fun p => decide (0 < p.available_spots)).isEmpty with _ | _
  · simp [h]
  · rw [List.isEmpty_iff] at h
    simp [h]

theorem find_top_parking_mem_available (parking_spots : List Spot)
    (dest_lat dest_lng : ℝ) (n : ℕ) :
    ∀ t ∈ find_top_parking parking_spots dest_lat dest_lng n,
      0 < t.1.available_spots := by
  intro t ht
  rw [find_top_parking_eq] at ht
  simp only [List.mem_map] at ht
  obtain ⟨u, hu, rfl⟩ := ht
  have h2 := List.mem_mergeSort.mp (List.mem_of_mem_take hu)
  simp only [scored_spots, List.mem_map] at h2
  obtain ⟨p, hp, rfl⟩ := h2
  exact of_decide_eq_true (List.mem_filter.mp hp).2

end PFV2

/-- C1: for every location with free capacity and every trip,
`score_parking` in `realtime_parking_system.py` returns the triple
`(score, drive_distance, walk_distance)` where the distances are the
haversine distances user→location and location→destination, and
`score = ((1 - priceWeight) * (drive + 2 * walk) + priceWeight * price * 100)
* penalty` with `penalty = 1.5` when `available_spots ≤ 20` and `1.0`
otherwise; the engine's price weight defaults to `0.3` when no user
preference is available. -/
theorem score_parking_matches_spec (users : RTS.UsersDb) (g : RTS.Garage)
    (user_lat user_lng dest_lat dest_lng w : ℝ)
    (_havail : 0 < g.available_spots) :
    RTS.score_parking g user_lat user_lng dest_lat dest_lng w =
      (((1 - w) * (haversine user_lat user_lng g.lat g.lng +
          2 * haversine g.lat g.lng dest_lat dest_lng) +
        w * g.price_per_hour * 100) *
        (if g.available_spots ≤ 20 then 1.5 else 1.0),
       haversine user_lat user_lng g.lat g.lng,
       haversine g.lat g.lng dest_lat dest_lng) ∧
    RTS.get_price_weight users none = 0.3 := by
  refine ⟨?_, rfl⟩
  simp only [RTS.score_parking]
  rcases le_or_lt g.available_spots 20 with h | h
  · rw [if_neg (not_lt.mpr h), if_pos h]
    simp only [Prod.mk.injEq]
    exact ⟨by ring, trivial⟩
  · rw [if_pos h, if_neg (not_le.mpr h)]
    simp only [Prod.mk.injEq]
    exact ⟨by ring, trivial⟩

/-- Witness for C1 at "Garage A" with a concrete trip and weight 1/2. -/
theorem score_parking_matches_spec_witness :
    (0 : ℤ) < RTS.garageA.available_spots ∧
    (RTS.score_parking RTS.garageA 1 2 3 4 (1/2) =
      (((1 - (1/2 : ℝ)) * (haversine 1 2 RTS.garageA.lat RTS.garageA.lng +
          2 * haversine RTS.garageA.lat RTS.garageA.lng 3 4) +
        (1/2 : ℝ) * RTS.garageA.price_per_hour * 100) *
        (if RTS.garageA.available_spots ≤ 20 then 1.5 else 1.0),
       haversine 1 2 RTS.garageA.lat RTS.garageA.lng,
       haversine RTS.garageA.lat RTS.garageA.lng 3 4) ∧
     RTS.get_price_weight [] none = 0.3) :=
  ⟨by decide, score_parking_matches_spec [] RTS.garageA 1 2 3 4 (1/2) (by decide)⟩

/-- C2: for every catalog state and trip, every candidate in the ranked
list returned by the recommendation operation (`find_top_garages` in
`realtime_parking_system.py`, `find_top_parking` in `parking_finder_v2.py`)
has strictly positive availability; a location with `available_spots = 0` is
never recommended. -/
theorem recommend_only_available (users : RTS.UsersDb)
    (username : Option String) (garages : List RTS.Garage)
    (spots : List PFV2.Spot) (user_lat user_lng dest_lat dest_lng : ℝ)
    (n m : ℕ) :
    (RTS.find_top_garages users username garages user_lat user_lng dest_lat
        dest_lng n).Forall (fun t => 0 < t.2.1.available_spots) ∧
    (PFV2.find_top_parking spots dest_lat dest_lng m).Forall
      (fun t => 0 < t.1.available_spots) := by
  constructor
  · exact List.forall_iff_forall_mem.mpr
      (RTS.find_top_garages_mem_available users username garages user_lat
        user_lng dest_lat dest_lng n)
  · exact List.forall_iff_forall_mem.mpr
      (PFV2.find_top_parking_mem_available spots dest_lat dest_lng m)

theorem decide_le_trans {α : Type} (key : α → ℝ) (a b c : α)
    (h1 : decide (key a ≤ key b) = true) (h2 : decide (key b ≤ key c) = true) :
    decide (key a ≤ key c) = true := by
  rw [decide_eq_true_eq] at h1 h2 ⊢
  exact le_trans h1 h2

theorem decide_le_total {α : Type} (key : α → ℝ) (a b : α) :
    (decide (key a ≤ key b) || decide (key b ≤ key a)) = true := by
  rcases le_total (key a) (key b) with h | h
  · simp [h]
  · simp [h]

/-- C7: the ranked list returned by the recommendation operation is sorted
in non-decreasing score order, is exactly the `n`-prefix (hence at most `n`
candidates) of the stable sort of the catalog-ordered scored-candidate list,
and that sort is stable: two candidates in score order in the catalog-ordered
scored list (in particular, tied candidates) stay in that order after
sorting.  Stated for `find_top_garages` of `realtime_parking_system.py` and
`find_top_parking` of `parking_finder_v2.py`. -/
theorem recommend_sorted_stable (users : RTS.UsersDb)
    (username : Option String) (garages : List RTS.Garage)
    (spots : List PFV2.Spot) (user_lat user_lng dest_lat dest_lng : ℝ)
    (n m : ℕ) :
    ((RTS.find_top_garages users username garages user_lat user_lng dest_lat
        dest_lng n).Pairwise (fun a b => a.1 ≤ b.1) ∧
     (RTS.find_top_garages users username garages user_lat user_lng dest_lat
        dest_lng n).length ≤ n ∧
     RTS.find_top_garages users username garages user_lat user_lng dest_lat
        dest_lng n =
       ((RTS.scored_garages users username garages user_lat user_lng dest_lat
          dest_lng).mergeSort fun a b => decide (a.1 ≤ b.1)).take n ∧
     (∀ a b, [a, b].Sublist (RTS.scored_garages users username garages
          user_lat user_lng dest_lat dest_lng) → a.1 ≤ b.1 →
        [a, b].Sublist ((RTS.scored_garages users username garages user_lat
          user_lng dest_lat dest_lng).mergeSort fun x y => decide (x.1 ≤ y.1)))) ∧
    ((PFV2.find_top_parking spots dest_lat dest_lng m).Pairwise
        (fun a b => a.2 ≤ b.2) ∧
     (PFV2.find_top_parking spots dest_lat dest_lng m).length ≤ m ∧
     PFV2.find_top_parking spots dest_lat dest_lng m =
       (((PFV2.scored_spots spots dest_lat dest_lng).mergeSort
           fun a b => decide (a.1 ≤ b.1)).take m).map (fun t => (t.2, t.1)) ∧
     (∀ a b, [a, b].Sublist (PFV2.scored_spots spots dest_lat dest_lng) →
        a.1 ≤ b.1 →
        [a, b].Sublist ((PFV2.scored_spots spots dest_lat dest_lng).mergeSort
          fun x y => decide (x.1 ≤ y.1)))) := by
  constructor
  · refine ⟨?_, ?_, RTS.find_top_garages_eq users username garages user_lat
      user_lng dest_lat dest_lng n, ?_⟩
    · rw [RTS.find_top_garages_eq]
      have hp := @List.sorted_mergeSort (ℝ × RTS.Garage × ℝ × ℝ)
        (fun a b => decide (a.1 ≤ b.1))
        (fun a b c => decide_le_trans (fun t => t.1) a b c)
        (fun a b => decide_le_total (fun t => t.1) a b)
        (RTS.scored_garages users username garages user_lat user_lng dest_lat
          dest_lng)
      exact ((hp.imp fun h => of_decide_eq_true h).sublist
        (List.take_sublist n _))
    · rw [RTS.find_top_garages_eq]
      exact List.length_take_le n _
    · intro a b hs hle
      refine List.sublist_mergeSort
        (fun a b c => decide_le_trans (fun t => t.1) a b c)
        (fun a b => decide_le_total (fun t => t.1) a b) ?_ hs
      exact List.pairwise_cons.mpr ⟨by simpa using hle, List.pairwise_singleton _ b⟩
  · refine ⟨?_, ?_, PFV2.find_top_parking_eq spots dest_lat dest_lng m, ?_⟩
    · rw [PFV2.find_top_parking_eq]
      rw [List.pairwise_map]
      have hp := @List.sorted_mergeSort (ℝ × PFV2.Spot)
        (fun a b => decide (a.1 ≤ b.1))
        (fun a b c => decide_le_trans (fun t => t.1) a b c)
        (fun a b => decide_le_total (fun t => t.1) a b)
        (PFV2.scored_spots spots dest_lat dest_lng)
      exact ((hp.imp fun h => of_decide_eq_true h).sublist
        (List.take_sublist m _))
    · rw [PFV2.find_top_parking_eq, List.length_map]
      exact List.length_take_le m _
    · intro a b hs hle
      refine List.sublist_mergeSort
        (fun a b c => decide_le_trans (fun t => t.1) a b c)
        (fun a b => decide_le_total (fun t => t.1) a b) ?_ hs
      exact List.pairwise_cons.mpr ⟨by simpa using hle, List.pairwise_singleton _ b⟩

namespace RTS

/-- A duplicated catalog entry used to exercise tie-breaking. -/
def garageDup : Garage := ⟨"Garage D", 0, 0, 2.0, 10, 5⟩

/-- The scored candidate produced for `garageDup` on the degenerate trip
where user, garage and destination coincide. -/
noncomputable def dupEntry : ℝ × Garage × ℝ × ℝ :=
  ((score_parking garageDup 0 0 0 0 (get_price_weight [] none)).1, garageDup,
   (score_parking garageDup 0 0 0 0 (get_price_weight [] none)).2.1,
   (score_parking garageDup 0 0 0 0 (get_price_weight [] none)).2.2)

theorem dup_scored_garages_eq :
    scored_garages [] none [garageDup, garageDup] 0 0 0 0 =
      [dupEntry, dupEntry] := rfl

end RTS

namespace PFV2

/-- A duplicated catalog entry used to exercise tie-breaking. -/
def spotDup : Spot := ⟨"Spot D", 0, 0, 2.0, 10, 5⟩

/-- The scored candidate produced for `spotDup` when the spot lies at the
destination. -/
noncomputable def dupEntry : ℝ × Spot :=
  (score_parking spotDup 0 0 0.5, spotDup)

theorem dup_scored_spots_eq :
    scored_spots [spotDup, spotDup] 0 0 = [dupEntry, dupEntry] := rfl

end PFV2

/-- Witness for C7: in a catalog with a duplicated location the two equal
scored candidates are in score order in the scored list, and keep their
order in the sorted list. -/
theorem recommend_sorted_stable_witness :
    ([RTS.dupEntry, RTS.dupEntry].Sublist
        (RTS.scored_garages [] none [RTS.garageDup, RTS.garageDup] 0 0 0 0) ∧
     RTS.dupEntry.1 ≤ RTS.dupEntry.1 ∧
     [RTS.dupEntry, RTS.dupEntry].Sublist
       ((RTS.scored_garages [] none [RTS.garageDup, RTS.garageDup] 0 0 0
          0).mergeSort fun x y => decide (x.1 ≤ y.1))) ∧
    ([PFV2.dupEntry, PFV2.dupEntry].Sublist
        (PFV2.scored_spots [PFV2.spotDup, PFV2.spotDup] 0 0) ∧
     PFV2.dupEntry.1 ≤ PFV2.dupEntry.1 ∧
     [PFV2.dupEntry, PFV2.dupEntry].Sublist
       ((PFV2.scored_spots [PFV2.spotDup, PFV2.spotDup] 0 0).mergeSort
         fun x y => decide (x.1 ≤ y.1))) := by
  have hR : [RTS.dupEntry, RTS.dupEntry].Sublist
      (RTS.scored_garages [] none [RTS.garageDup, RTS.garageDup] 0 0 0 0) := by
    rw [RTS.dup_scored_garages_eq]
  have hP : [PFV2.dupEntry, PFV2.dupEntry].Sublist
      (PFV2.scored_spots [PFV2.spotDup, PFV2.spotDup] 0 0) := by
    rw [PFV2.dup_scored_spots_eq]
  have hR2 := (recommend_sorted_stable [] none [RTS.garageDup, RTS.garageDup]
    [] 0 0 0 0 3 3).1.2.2.2 RTS.dupEntry RTS.dupEntry hR (le_refl _)
  have hP2 := (recommend_sorted_stable [] none []
    [PFV2.spotDup, PFV2.spotDup] 0 0 0 0 3 3).2.2.2.2 PFV2.dupEntry
    PFV2.dupEntry hP (le_refl _)
  exact ⟨⟨hR, le_refl _, hR2⟩, ⟨hP, le_refl _, hP2⟩⟩

/-- C6: for every location and adjustment delta (any sign and magnitude)
applied by the availability simulators (`simulate_spots` in
`realtime_parking_system.py`, `simulate_parking_changes` in
`parking_finder_v2.py`), the new availability is the old value plus the
delta clamped into `[0, total]`; hence, for catalogs whose capacities are
non-negative, `0 ≤ available ≤ total` holds after every mutation. -/
theorem adjust_availability_clamped (g : RTS.Garage) (p : PFV2.Spot)
    (c1 c2 : ℤ) (delta : RTS.Garage → ℤ) (garages : List RTS.Garage)
    (hg : 0 ≤ g.total_spots) (hp : 0 ≤ p.capacity)
    (hall : garages.Forall fun x => 0 ≤ x.total_spots) :
    ((RTS.adjust_spot g c1).available_spots =
        max 0 (min g.total_spots (g.available_spots + c1)) ∧
      0 ≤ (RTS.adjust_spot g c1).available_spots ∧
      (RTS.adjust_spot g c1).available_spots ≤ (RTS.adjust_spot g c1).total_spots) ∧
    ((PFV2.adjust_spot p c2).available_spots =
        max 0 (min p.capacity (p.available_spots + c2)) ∧
      0 ≤ (PFV2.adjust_spot p c2).available_spots ∧
      (PFV2.adjust_spot p c2).available_spots ≤ (PFV2.adjust_spot p c2).capacity) ∧
    (RTS.simulate_spots_tick delta garages).Forall
      (fun x => 0 ≤ x.available_spots ∧ x.available_spots ≤ x.total_spots) := by
  refine ⟨⟨rfl, le_max_left _ _, max_le hg (min_le_left _ _)⟩,
    ⟨rfl, le_max_left _ _, max_le hp (min_le_left _ _)⟩, ?_⟩
  rw [List.forall_iff_forall_mem]
  intro x hx
  simp only [RTS.simulate_spots_tick, List.mem_map] at hx
  obtain ⟨y, hy, rfl⟩ := hx
  have hyT : 0 ≤ y.total_spots := List.forall_iff_forall_mem.mp hall y hy
  exact ⟨le_max_left _ _, max_le hyT (min_le_left _ _)⟩

/-- Witness for C6: a large negative delta on "Garage A", a positive delta
on a v2 spot, and a whole-catalog tick. -/
theorem adjust_availability_clamped_witness :
    ((0 : ℤ) ≤ RTS.garageA.total_spots ∧ (0 : ℤ) ≤ PFV2.spotDup.capacity ∧
      [RTS.garageA].Forall (fun x => (0 : ℤ) ≤ x.total_spots)) ∧
    (((RTS.adjust_spot RTS.garageA (-1000)).available_spots =
        max 0 (min RTS.garageA.total_spots (RTS.garageA.available_spots + (-1000))) ∧
      0 ≤ (RTS.adjust_spot RTS.garageA (-1000)).available_spots ∧
      (RTS.adjust_spot RTS.garageA (-1000)).available_spots ≤
        (RTS.adjust_spot RTS.garageA (-1000)).total_spots) ∧
    ((PFV2.adjust_spot PFV2.spotDup 7).available_spots =
        max 0 (min PFV2.spotDup.capacity (PFV2.spotDup.available_spots + 7)) ∧
      0 ≤ (PFV2.adjust_spot PFV2.spotDup 7).available_spots ∧
      (PFV2.adjust_spot PFV2.spotDup 7).available_spots ≤
        (PFV2.adjust_spot PFV2.spotDup 7).capacity) ∧
    (RTS.simulate_spots_tick (fun _ => -3) [RTS.garageA]).Forall
      (fun x => 0 ≤ x.available_spots ∧ x.available_spots ≤ x.total_spots)) :=
  ⟨⟨by decide, by decide, by decide⟩,
   adjust_availability_clamped RTS.garageA PFV2.spotDup (-1000) 7 (fun _ => -3)
     [RTS.garageA] (by decide) (by decide) (by decide)⟩

/-- C8 (amended): the haversine distance is non-negative, symmetric, and
zero when the two coordinate pairs coincide.  The converse of the last part
(the "only if" of "zero iff `a = b`") is false on the code: see the
counterexample theorem. -/
theorem haversine_metric_properties (lat1 lon1 lat2 lon2 : ℝ) :
    0 ≤ haversine lat1 lon1 lat2 lon2 ∧
    haversine lat1 lon1 lat2 lon2 = haversine lat2 lon2 lat1 lon1 ∧
    haversine lat1 lon1 lat1 lon1 = 0 :=
  ⟨haversine_nonneg lat1 lon1 lat2 lon2, haversine_symm lat1 lon1 lat2 lon2,
   haversine_self lat1 lon1⟩

/-- C8 counterexample: "zero iff `a = b`" fails on the code: the distinct
coordinate pairs (90, 0) and (90, 1) — both the north pole, with different
longitudes — are at haversine distance 0. -/
theorem haversine_zero_iff_counterexample :
    haversine 90 0 90 1 = 0 ∧
    ((90 : ℝ), (0 : ℝ)) ≠ ((90 : ℝ), (1 : ℝ)) :=
  ⟨haversine_pole, by norm_num [Prod.ext_iff]⟩

namespace RTS

/-- Proof device: the events contributed by one snapshot entry of the
`check_user_recommendations` loop. -/
noncomputable def entryEvents (users : UsersDb) (parking_spots : List Garage)
    (changed_garage : Garage) (old_available : ℤ) (current_time : ℝ)
    (e : String × Rec) : List Event :=
  if current_time - e.2.timestamp > 300 then []
  else if e.2.garage_name = changed_garage.name then
    if changed_garage.available_spots = 0 then
      (send_reroute_notification users parking_spots e.1 e.2 current_time).1
    else if changed_garage.available_spots < 5 ∧ 5 ≤ old_available then
      [Event.warning e.1 changed_garage.name changed_garage.available_spots]
    else []
  else []

/-- Proof device: the in-place ledger update contributed by one entry. -/
noncomputable def entryUpdate (users : UsersDb) (parking_spots : List Garage)
    (changed_garage : Garage) (current_time : ℝ) (e : String × Rec) :
    Option Rec :=
  if current_time - e.2.timestamp > 300 then none
  else if e.2.garage_name = changed_garage.name then
    if changed_garage.available_spots = 0 then
      (send_reroute_notification users parking_spots e.1 e.2 current_time).2
    else none
  else none

/-- Proof device: applying one entry's ledger update. -/
noncomputable def applyUpd (users : UsersDb) (parking_spots : List Garage)
    (changed_garage : Garage) (current_time : ℝ) (led : Ledger)
    (e : String × Rec) : Ledger :=
  match entryUpdate users parking_spots changed_garage current_time e with
  | some nr => updateLedger led e.1 nr
  | none => led

theorem check_body_eq (users : UsersDb) (parking_spots : List Garage)
    (changed_garage : Garage) (old_available : ℤ) (current_time : ℝ)
    (acc : List Event × Ledger) (e : String × Rec) :
    check_body users parking_spots changed_garage old_available current_time
        acc e =
      (acc.1 ++ entryEvents users parking_spots changed_garage old_available
          current_time e,
       applyUpd users parking_spots changed_garage current_time acc.2 e) := by
  simp only [check_body, entryEvents, entryUpdate, applyUpd]
  split_ifs <;> simp

theorem check_fold_eq (users : UsersDb) (parking_spots : List Garage)
    (changed_garage : Garage) (old_available : ℤ) (current_time : ℝ)
    (L : List (String × Rec)) (evs : List Event) (led : Ledger) :
    L.foldl
        (check_body users parking_spots changed_garage old_available
          current_time) (evs, led) =
      (evs ++ L.flatMap
          (entryEvents users parking_spots changed_garage old_available
            current_time),
       L.foldl (applyUpd users parking_spots changed_garage current_time)
         led) := by
  induction L generalizing evs led with
  | nil => simp
  | cons e L ih =>
    rw [List.foldl_cons, check_body_eq, ih, List.foldl_cons, List.flatMap_cons]
    simp [List.append_assoc]

theorem send_reroute_sid (users : UsersDb) (parking_spots : List Garage)
    (sid : String) (r : Rec) (now : ℝ) :
    ∀ ev ∈ (send_reroute_notification users parking_spots sid r now).1,
      ev.sid = sid := by
  intro ev hev
  unfold send_reroute_notification at hev
  split at hev
  · simp only [List.mem_singleton] at hev
    subst hev
    rfl
  · split at hev
    · simp at hev
    · simp only [List.mem_singleton] at hev
      subst hev
      rfl

theorem entryEvents_sid (users : UsersDb) (parking_spots : List Garage)
    (changed_garage : Garage) (old_available : ℤ) (current_time : ℝ)
    (e : String × Rec) :
    ∀ ev ∈ entryEvents users parking_spots changed_garage old_available
        current_time e, ev.sid = e.1 := by
  intro ev hev
  simp only [entryEvents] at hev
  split_ifs at hev
  all_goals first
    | exact absurd hev (List.not_mem_nil ev)
    | exact send_reroute_sid users parking_spots e.1 e.2 current_time ev hev
    | (simp only [List.mem_singleton] at hev; subst hev; rfl)

theorem eventsFor_all (sid : String) (evs : List Event)
    (h : ∀ ev ∈ evs, ev.sid = sid) : eventsFor sid evs = evs :=
  List.filter_eq_self.mpr fun a ha => decide_eq_true (h a ha)

theorem eventsFor_nil_of (sid : String) (evs : List Event)
    (h : ∀ ev ∈ evs, ev.sid ≠ sid) : eventsFor sid evs = [] := by
  unfold eventsFor
  rw [List.filter_eq_nil_iff]
  intro a ha
  simpa using h a ha

theorem eventsFor_append (sid : String) (l1 l2 : List Event) :
    eventsFor sid (l1 ++ l2) = eventsFor sid l1 ++ eventsFor sid l2 :=
  List.filter_append l1 l2

theorem eventsFor_flatMap_entry (users : UsersDb)
    (parking_spots : List Garage) (changed_garage : Garage)
    (old_available : ℤ) (current_time : ℝ) (L : List (String × Rec))
    (sid : String) (r : Rec) (hnd : (L.map Prod.fst).Nodup)
    (hmem : (sid, r) ∈ L) :
    eventsFor sid (L.flatMap
        (entryEvents users parking_spots changed_garage old_available
          current_time)) =
      entryEvents users parking_spots changed_garage old_available
        current_time (sid, r) := by
  induction L with
  | nil => cases hmem
  | cons e L ih =>
    rw [List.map_cons, List.nodup_cons] at hnd
    rw [List.flatMap_cons, eventsFor_append]
    rcases List.mem_cons.mp hmem with he | he
    · subst he
      rw [eventsFor_all sid _
        (entryEvents_sid users parking_spots changed_garage old_available
          current_time (sid, r))]
      have hnone : eventsFor sid (L.flatMap
          (entryEvents users parking_spots changed_garage old_available
            current_time)) = [] := by
        apply eventsFor_nil_of
        intro ev hev
        rw [List.mem_flatMap] at hev
        obtain ⟨e2, he2, hev2⟩ := hev
        rw [entryEvents_sid users parking_spots changed_garage old_available
          current_time e2 ev hev2]
        intro hcontra
        have h2 : e2.1 ∈ L.map Prod.fst := List.mem_map_of_mem Prod.fst he2
        rw [hcontra] at h2
        exact hnd.1 h2
      rw [hnone, List.append_nil]
    · have hne : e.1 ≠ sid := fun h =>
        hnd.1 (h ▸ List.mem_map_of_mem Prod.fst he)
      rw [eventsFor_nil_of sid _
        (fun ev hev => by
          rw [entryEvents_sid users parking_spots changed_garage old_available
            current_time e ev hev]
          exact hne),
        List.nil_append]
      exact ih hnd.2 he

theorem lookupRec_cons (e : String × Rec) (led : Ledger) (sid : String) :
    lookupRec (e :: led) sid =
      if e.1 = sid then some e.2 else lookupRec led sid := by
  by_cases h : e.1 = sid
  · simp [lookupRec, List.find?_cons_of_pos, h]
  · simp [lookupRec, List.find?_cons_of_neg, h]

theorem updateLedger_cons (e : String × Rec) (led : Ledger) (sid : String)
    (nr : Rec) :
    updateLedger (e :: led) sid nr =
      (if e.1 = sid then (sid, nr) else e) :: updateLedger led sid nr := by
  simp [updateLedger]

theorem lookupRec_of_mem (ledger : Ledger) (sid : String) (r : Rec)
    (hnd : (ledger.map Prod.fst).Nodup) (hmem : (sid, r) ∈ ledger) :
    lookupRec ledger sid = some r := by
  induction ledger with
  | nil => cases hmem
  | cons e L ih =>
    rw [List.map_cons, List.nodup_cons] at hnd
    rw [lookupRec_cons]
    rcases List.mem_cons.mp hmem with he | he
    · subst he
      simp
    · have hne : e.1 ≠ sid := fun h =>
        hnd.1 (h ▸ List.mem_map_of_mem Prod.fst he)
      rw [if_neg hne]
      exact ih hnd.2 he

theorem lookupRec_updateLedger_self (led : Ledger) (sid : String) (x nr : Rec)
    (h : lookupRec led sid = some x) :
    lookupRec (updateLedger led sid nr) sid = some nr := by
  induction led with
  | nil => simp [lookupRec] at h
  | cons e led ih =>
    by_cases he : e.1 = sid
    · rw [updateLedger_cons, if_pos he, lookupRec_cons]
      simp
    · rw [updateLedger_cons, if_neg he, lookupRec_cons, if_neg he]
      rw [lookupRec_cons, if_neg he] at h
      exact ih h

theorem lookupRec_updateLedger_ne (led : Ledger) (sid1 sid : String) (nr : Rec)
    (hne : sid1 ≠ sid) :
    lookupRec (updateLedger led sid1 nr) sid = lookupRec led sid := by
  induction led with
  | nil => rfl
  | cons e led ih =>
    rw [updateLedger_cons, lookupRec_cons, lookupRec_cons]
    by_cases he : e.1 = sid1
    · have h2 : e.1 ≠ sid := fun h => hne (he ▸ h)
      rw [if_pos he]
      simp only [if_neg hne, if_neg h2]
      exact ih
    · rw [if_neg he]
      by_cases h2 : e.1 = sid
      · rw [if_pos h2, if_pos h2]
      · rw [if_neg h2, if_neg h2]
        exact ih

theorem lookupRec_applyUpd_ne (users : UsersDb) (parking_spots : List Garage)
    (changed_garage : Garage) (current_time : ℝ) (led : Ledger)
    (e : String × Rec) (sid : String) (hne : e.1 ≠ sid) :
    lookupRec
        (applyUpd users parking_spots changed_garage current_time led e)
        sid = lookupRec led sid := by
  unfold applyUpd
  cases hu : entryUpdate users parking_spots changed_garage current_time e with
  | none => rfl
  | some nr => exact lookupRec_updateLedger_ne led e.1 sid nr hne

theorem lookupRec_foldl_ne (users : UsersDb) (parking_spots : List Garage)
    (changed_garage : Garage) (current_time : ℝ) (L : List (String × Rec))
    (led : Ledger) (sid : String) (h : ∀ e ∈ L, e.1 ≠ sid) :
    lookupRec
        (L.foldl (applyUpd users parking_spots changed_garage current_time)
          led) sid = lookupRec led sid := by
  induction L generalizing led with
  | nil => rfl
  | cons e L ih =>
    rw [List.foldl_cons]
    rw [ih _ fun x hx => h x (List.mem_cons_of_mem e hx)]
    exact lookupRec_applyUpd_ne users parking_spots changed_garage
      current_time led e sid (h e (List.mem_cons_self e L))

theorem lookupRec_foldl_applyUpd (users : UsersDb)
    (parking_spots : List Garage) (changed_garage : Garage)
    (current_time : ℝ) (L : List (String × Rec)) (led : Ledger)
    (sid : String) (r : Rec) (hnd : (L.map Prod.fst).Nodup)
    (hmem : (sid, r) ∈ L) (hled : lookupRec led sid = some r) :
    lookupRec
        (L.foldl (applyUpd users parking_spots changed_garage current_time)
          led) sid =
      match entryUpdate users parking_spots changed_garage current_time
          (sid, r) with
      | some nr => some nr
      | none => some r := by
  induction L generalizing led with
  | nil => cases hmem
  | cons e L ih =>
    rw [List.map_cons, List.nodup_cons] at hnd
    rw [List.foldl_cons]
    rcases List.mem_cons.mp hmem with he | he
    · subst he
      have hkeys : ∀ x ∈ L, x.1 ≠ sid := by
        intro x hx hcontra
        have h2 : x.1 ∈ L.map Prod.fst := List.mem_map_of_mem Prod.fst hx
        rw [hcontra] at h2
        exact hnd.1 h2
      rw [lookupRec_foldl_ne users parking_spots changed_garage current_time
        L _ sid hkeys]
      unfold applyUpd
      cases hu : entryUpdate users parking_spots changed_garage current_time
          (sid, r) with
      | none => exact hled
      | some nr => exact lookupRec_updateLedger_self led sid r nr hled
    · have hne : e.1 ≠ sid := fun h =>
        hnd.1 (h ▸ List.mem_map_of_mem Prod.fst he)
      exact ih _ hnd.2 he
        (by
          rw [lookupRec_applyUpd_ne users parking_spots changed_garage
            current_time led e sid hne]
          exact hled)

end RTS

namespace RTS

theorem eventsFor_check_eq (users : UsersDb) (parking_spots : List Garage)
    (changed_garage : Garage) (old_available : ℤ) (current_time : ℝ)
    (ledger : Ledger) (sid : String) (r : Rec)
    (hnd : (ledger.map Prod.fst).Nodup) (hmem : (sid, r) ∈ ledger) :
    eventsFor sid
        (check_user_recommendations users parking_spots changed_garage
          old_available current_time ledger).1 =
      entryEvents users parking_spots changed_garage old_available
        current_time (sid, r) := by
  unfold check_user_recommendations
  rw [check_fold_eq]
  simp only [List.nil_append]
  exact eventsFor_flatMap_entry users parking_spots changed_garage
    old_available current_time ledger sid r hnd hmem

theorem lookupRec_check_eq (users : UsersDb) (parking_spots : List Garage)
    (changed_garage : Garage) (old_available : ℤ) (current_time : ℝ)
    (ledger : Ledger) (sid : String) (r : Rec)
    (hnd : (ledger.map Prod.fst).Nodup) (hmem : (sid, r) ∈ ledger) :
    lookupRec
        (check_user_recommendations users parking_spots changed_garage
          old_available current_time ledger).2 sid =
      match entryUpdate users parking_spots changed_garage current_time
          (sid, r) with
      | some nr => some nr
      | none => some r := by
  unfold check_user_recommendations
  rw [check_fold_eq]
  exact lookupRec_foldl_applyUpd users parking_spots changed_garage
    current_time ledger ledger sid r hnd hmem
    (lookupRec_of_mem ledger sid r hnd hmem)

theorem find_best_garage_none (users : UsersDb) (username : Option String)
    (parking_spots : List Garage) (u1 u2 d1 d2 : ℝ)
    (h : ∀ g ∈ parking_spots, ¬ 0 < g.available_spots) :
    find_best_garage users username parking_spots u1 u2 d1 d2 = none := by
  have hf : parking_spots.filter (fun g => decide (0 < g.available_spots)) = [] :=
    List.filter_eq_nil_iff.mpr fun a ha => by simpa using h a ha
  simp [find_best_garage, hf]

theorem send_reroute_ne_nil (users : UsersDb) (parking_spots : List Garage)
    (sid : String) (r : Rec) (now : ℝ) (changed : Garage)
    (hin : changed ∈ parking_spots)
    (hname : r.garage_name = changed.name) :
    (send_reroute_notification users parking_spots sid r now).1 ≠ [] := by
  unfold send_reroute_notification
  cases hfb : find_best_garage users r.username parking_spots r.user_lat
      r.user_lng r.dest_lat r.dest_lng with
  | none => simp
  | some t =>
    obtain ⟨g, dr, wk⟩ := t
    cases hfind : parking_spots.find? fun x => decide (x.name = r.garage_name) with
    | none =>
      rw [List.find?_eq_none] at hfind
      exact absurd (decide_eq_true hname.symm) (hfind changed hin)
    | some og => simp

end RTS

/-- C3: when an availability change to a location is processed, exactly the
non-stale (at most 300 time units old) ledger entries bound to that
location's name are considered; for each such entry: if the new available
count is 0 the forced full-reroute dispatch runs (which performs no cooldown
check — the forced path has no throttle); otherwise, if the new count is
below 5 and the old count was at least 5, exactly one low-availability
warning is emitted; otherwise nothing is sent.  Stale entries and entries
bound to other locations produce no events. -/
theorem dispatcher_considers_and_classifies (users : RTS.UsersDb)
    (parking_spots : List RTS.Garage) (changed_garage : RTS.Garage)
    (old_available : ℤ) (current_time : ℝ) (ledger : RTS.Ledger)
    (sid : String) (r : RTS.Rec) (hnd : (ledger.map Prod.fst).Nodup)
    (hmem : (sid, r) ∈ ledger) (hin : changed_garage ∈ parking_spots) :
    (¬ (current_time - r.timestamp ≤ 300) ∨
        r.garage_name ≠ changed_garage.name →
      RTS.eventsFor sid
        (RTS.check_user_recommendations users parking_spots changed_garage
          old_available current_time ledger).1 = []) ∧
    (current_time - r.timestamp ≤ 300 →
      r.garage_name = changed_garage.name →
      changed_garage.available_spots = 0 →
      RTS.eventsFor sid
          (RTS.check_user_recommendations users parking_spots changed_garage
            old_available current_time ledger).1 =
        (RTS.send_reroute_notification users parking_spots sid r
          current_time).1 ∧
      (RTS.send_reroute_notification users parking_spots sid r
        current_time).1 ≠ []) ∧
    (current_time - r.timestamp ≤ 300 →
      r.garage_name = changed_garage.name →
      changed_garage.available_spots ≠ 0 →
      changed_garage.available_spots < 5 → 5 ≤ old_available →
      RTS.eventsFor sid
          (RTS.check_user_recommendations users parking_spots changed_garage
            old_available current_time ledger).1 =
        [RTS.Event.warning sid changed_garage.name
          changed_garage.available_spots]) ∧
    (current_time - r.timestamp ≤ 300 →
      r.garage_name = changed_garage.name →
      changed_garage.available_spots ≠ 0 →
      ¬ (changed_garage.available_spots < 5 ∧ 5 ≤ old_available) →
      RTS.eventsFor sid
        (RTS.check_user_recommendations users parking_spots changed_garage
          old_available current_time ledger).1 = []) := by
  have hkey := RTS.eventsFor_check_eq users parking_spots changed_garage
    old_available current_time ledger sid r hnd hmem
  refine ⟨?_, ?_, ?_, ?_⟩
  · intro h
    rw [hkey]
    simp only [RTS.entryEvents]
    by_cases ht : current_time - r.timestamp > 300
    · rw [if_pos ht]
    · rcases h with h | h
      · exact absurd (not_lt.mp ht) h
      · rw [if_neg ht, if_neg h]
  · intro ht hname hfull
    constructor
    · rw [hkey]
      simp only [RTS.entryEvents]
      rw [if_neg (not_lt.mpr ht), if_pos hname, if_pos hfull]
    · exact RTS.send_reroute_ne_nil users parking_spots sid r current_time
        changed_garage hin hname
  · intro ht hname hfull hlt hge
    rw [hkey]
    simp only [RTS.entryEvents]
    rw [if_neg (not_lt.mpr ht), if_pos hname, if_neg hfull, if_pos ⟨hlt, hge⟩]
  · intro ht hname hfull hcond
    rw [hkey]
    simp only [RTS.entryEvents]
    rw [if_neg (not_lt.mpr ht), if_pos hname, if_neg hfull, if_neg hcond]

/-- C4: when a session's recommended location becomes full, the dispatcher
recomputes the best garage from the stored trip; if no location has any
availability it emits the "no parking available" error and leaves the
session's ledger entry unchanged; otherwise it emits a reroute notification
and updates the entry in place with the new location's name, the new walk
distance and a refreshed timestamp. -/
theorem dispatcher_full_resolution (users : RTS.UsersDb)
    (parking_spots : List RTS.Garage) (changed_garage : RTS.Garage)
    (old_available : ℤ) (current_time : ℝ) (ledger : RTS.Ledger)
    (sid : String) (r : RTS.Rec) (hnd : (ledger.map Prod.fst).Nodup)
    (hmem : (sid, r) ∈ ledger) (hin : changed_garage ∈ parking_spots)
    (hfresh : current_time - r.timestamp ≤ 300)
    (hname : r.garage_name = changed_garage.name)
    (hfull : changed_garage.available_spots = 0) :
    ((∀ g ∈ parking_spots, ¬ 0 < g.available_spots) →
      RTS.eventsFor sid
          (RTS.check_user_recommendations users parking_spots changed_garage
            old_available current_time ledger).1 =
        [RTS.Event.noParking sid] ∧
      RTS.lookupRec
        (RTS.check_user_recommendations users parking_spots changed_garage
          old_available current_time ledger).2 sid = some r) ∧
    (∀ ng ndr nwk,
      RTS.find_best_garage users r.username parking_spots r.user_lat
          r.user_lng r.dest_lat r.dest_lng = some (ng, ndr, nwk) →
      RTS.eventsFor sid
          (RTS.check_user_recommendations users parking_spots changed_garage
            old_available current_time ledger).1 =
        [RTS.Event.reroute sid ng.name nwk] ∧
      RTS.lookupRec
          (RTS.check_user_recommendations users parking_spots changed_garage
            old_available current_time ledger).2 sid =
        some { r with
                 garage_name := ng.name
                 timestamp := current_time
                 walk_distance := nwk }) := by
  have hkey := RTS.eventsFor_check_eq users parking_spots changed_garage
    old_available current_time ledger sid r hnd hmem
  have hled := RTS.lookupRec_check_eq users parking_spots changed_garage
    old_available current_time ledger sid r hnd hmem
  have hee : RTS.entryEvents users parking_spots changed_garage old_available
      current_time (sid, r) =
      (RTS.send_reroute_notification users parking_spots sid r
        current_time).1 := by
    simp only [RTS.entryEvents]
    rw [if_neg (not_lt.mpr hfresh), if_pos hname, if_pos hfull]
  have heu : RTS.entryUpdate users parking_spots changed_garage current_time
      (sid, r) =
      (RTS.send_reroute_notification users parking_spots sid r
        current_time).2 := by
    simp only [RTS.entryUpdate]
    rw [if_neg (not_lt.mpr hfresh), if_pos hname, if_pos hfull]
  constructor
  · intro hnone
    have hfb := RTS.find_best_garage_none users r.username parking_spots
      r.user_lat r.user_lng r.dest_lat r.dest_lng hnone
    have hsr : RTS.send_reroute_notification users parking_spots sid r
        current_time = ([RTS.Event.noParking sid], none) := by
      unfold RTS.send_reroute_notification
      rw [hfb]
    constructor
    · rw [hkey, hee, hsr]
    · rw [hled, heu, hsr]
  · intro ng ndr nwk hfb
    have hfind : ∃ og, parking_spots.find?
        (fun g => decide (g.name = r.garage_name)) = some og := by
      cases hf : parking_spots.find? fun g => decide (g.name = r.garage_name) with
      | some og => exact ⟨og, rfl⟩
      | none =>
        rw [List.find?_eq_none] at hf
        exact absurd (decide_eq_true hname.symm) (hf changed_garage hin)
    obtain ⟨og, hog⟩ := hfind
    have hsr : RTS.send_reroute_notification users parking_spots sid r
        current_time =
        ([RTS.Event.reroute sid ng.name nwk],
         some { r with
                  garage_name := ng.name
                  timestamp := current_time
                  walk_distance := nwk }) := by
      unfold RTS.send_reroute_notification
      rw [hfb, hog]
    constructor
    · rw [hkey, hee, hsr]
    · rw [hled, heu, hsr]

namespace RTS

/-- A garage that just became full. -/
def garageB0 : Garage := ⟨"Garage B", 0, 0, 1.0, 100, 0⟩

/-- A ledger entry pointing at `garageB0`, for the degenerate trip at the
origin. -/
def rec0 : Rec := ⟨none, "Garage B", 0, 0, 0, 0, 0, 1, 0⟩

/-- A garage down to 3 spots. -/
def garageC3 : Garage := ⟨"Garage C", 0, 0, 1.5, 75, 3⟩

/-- A ledger entry pointing at `garageC3`. -/
def recC : Rec := ⟨none, "Garage C", 0, 0, 0, 0, 0, 1, 0⟩

theorem find_best_concrete :
    find_best_garage [] none [garageB0, garageDup] 0 0 0 0 =
      some (garageDup, 0, 0) := by
  have h1 : find_best_garage [] none [garageB0, garageDup] 0 0 0 0 =
      some (garageDup, haversine 0 0 0 0, haversine 0 0 0 0) := rfl
  rw [h1, haversine_self]

end RTS

/-- Witness for C3: availability of "Garage C" drops from 6 to 3 while a
fresh session points at it: exactly one low-availability warning goes out. -/
theorem dispatcher_considers_and_classifies_witness :
    ((100 : ℝ) - RTS.recC.timestamp ≤ 300 ∧
     RTS.recC.garage_name = RTS.garageC3.name ∧
     RTS.garageC3.available_spots ≠ 0 ∧
     RTS.garageC3.available_spots < 5 ∧ (5 : ℤ) ≤ 6) ∧
    RTS.eventsFor "s"
        (RTS.check_user_recommendations [] [RTS.garageC3] RTS.garageC3 6 100
          [("s", RTS.recC)]).1 =
      [RTS.Event.warning "s" RTS.garageC3.name RTS.garageC3.available_spots] :=
  ⟨⟨by norm_num [RTS.recC], rfl, by decide, by decide, by decide⟩,
   (dispatcher_considers_and_classifies [] [RTS.garageC3] RTS.garageC3 6 100
       [("s", RTS.recC)] "s" RTS.recC (by simp)
       (List.mem_singleton_self _) (List.mem_singleton_self _)).2.2.1
     (by norm_num [RTS.recC]) rfl (by decide) (by decide) (by decide)⟩

/-- Witness for C4: "Garage B" becomes full while a fresh session points at
it; "Garage D" is still available, so the session gets a reroute
notification and its ledger entry is rewritten in place. -/
theorem dispatcher_full_resolution_witness :
    ((100 : ℝ) - RTS.rec0.timestamp ≤ 300 ∧
     RTS.rec0.garage_name = RTS.garageB0.name ∧
     RTS.garageB0.available_spots = 0 ∧
     RTS.find_best_garage [] RTS.rec0.username [RTS.garageB0, RTS.garageDup]
         RTS.rec0.user_lat RTS.rec0.user_lng RTS.rec0.dest_lat
         RTS.rec0.dest_lng = some (RTS.garageDup, 0, 0)) ∧
    RTS.eventsFor "s"
        (RTS.check_user_recommendations [] [RTS.garageB0, RTS.garageDup]
          RTS.garageB0 10 100 [("s", RTS.rec0)]).1 =
      [RTS.Event.reroute "s" RTS.garageDup.name 0] ∧
    RTS.lookupRec
        (RTS.check_user_recommendations [] [RTS.garageB0, RTS.garageDup]
          RTS.garageB0 10 100 [("s", RTS.rec0)]).2 "s" =
      some { RTS.rec0 with
               garage_name := RTS.garageDup.name
               timestamp := 100
               walk_distance := 0 } :=
  ⟨⟨by norm_num [RTS.rec0], rfl, by decide, RTS.find_best_concrete⟩,
   (dispatcher_full_resolution [] [RTS.garageB0, RTS.garageDup] RTS.garageB0
       10 100 [("s", RTS.rec0)] "s" RTS.rec0 (by simp)
       (List.mem_singleton_self _) (List.mem_cons_self _ _)
       (by norm_num [RTS.rec0]) rfl (by decide)).2 RTS.garageDup 0 0
     RTS.find_best_concrete⟩

theorem navStep_deal_analysis (parking_spots : List PFV2.Spot)
    (dest_lat dest_lng duration : ℝ) (s : PFV2.NavState) (t : ℝ)
    (nm : String) (sv : ℝ)
    (hmem : PFV2.NavEvent.rerouteDeal nm sv ∈
      (PFV2.simulate_user_navigation_step parking_spots dest_lat dest_lng
        duration s t).1) :
    t - s.last_notification_time > 10 ∧ sv > 1.0 ∧
    (PFV2.simulate_user_navigation_step parking_spots dest_lat dest_lng
        duration s t).2.last_notification_time = t ∧
    ∃ best rest old,
      PFV2.find_top_parking parking_spots dest_lat dest_lng 3 = best :: rest ∧
      s.last_recommended = some old ∧ nm = best.1.name ∧
      haversine s.lat s.lng best.1.lat best.1.lng > 200 ∧
      sv = old.price_per_hour * duration -
        best.1.price_per_hour * duration := by
  rcases hft : PFV2.find_top_parking parking_spots dest_lat dest_lng 3 with
    _ | ⟨⟨best, score⟩, rest⟩
  · simp [PFV2.simulate_user_navigation_step, hft] at hmem
  · rcases hlr : s.last_recommended with _ | old
    · simp [PFV2.simulate_user_navigation_step, hft, hlr] at hmem
    · simp only [PFV2.simulate_user_navigation_step, hft, hlr] at hmem ⊢
      by_cases hbn : best.name ≠ old.name
      · rw [if_pos hbn] at hmem ⊢
        by_cases hav : (parking_spots.any fun p =>
            decide (p.name = old.name ∧ 0 < p.available_spots)) = true
        · rw [if_neg (fun h => h hav)] at hmem ⊢
          by_cases hdist : haversine s.lat s.lng best.lat best.lng > 200
          · rw [if_pos hdist] at hmem ⊢
            by_cases hsav : old.price_per_hour * duration -
                best.price_per_hour * duration > 1.0
            · rw [if_pos hsav] at hmem ⊢
              simp only [Option.elim_some] at hmem ⊢
              by_cases hth : t - s.last_notification_time > 10
              · rw [if_pos hth] at hmem ⊢
                simp only [List.mem_singleton, PFV2.NavEvent.rerouteDeal.injEq]
                  at hmem
                obtain ⟨hnm, hsv⟩ := hmem
                subst hnm
                subst hsv
                exact ⟨hth, hsav, rfl,
                  ⟨(best, score), rest, old, rfl, rfl, rfl, hdist, rfl⟩⟩
              · rw [if_neg hth] at hmem
                simp at hmem
            · rw [if_neg hsav] at hmem
              simp at hmem
          · rw [if_neg hdist] at hmem
            simp at hmem
        · rw [if_pos hav] at hmem
          split at hmem <;> simp at hmem
      · rw [if_neg hbn] at hmem
        simp at hmem

/-- C5: on the better-alternative (non-full) reroute path of
`simulate_user_navigation` in `parking_finder_v2.py`, a notification is
printed only when more than 10 time units have elapsed since the session's
last notification, the new best spot is more than 200 m of driving distance
from the user's current position, and the price saving exceeds 1.0; hence
of two deal-notification-worthy events within the 10-unit cooldown, only
the first produces a notification. -/
theorem throttled_deal_notifications (parking_spots : List PFV2.Spot)
    (dest_lat dest_lng duration : ℝ) (s : PFV2.NavState) (t1 t2 : ℝ) :
    (∀ nm sv, PFV2.NavEvent.rerouteDeal nm sv ∈
        (PFV2.simulate_user_navigation_step parking_spots dest_lat dest_lng
          duration s t1).1 →
      t1 - s.last_notification_time > 10 ∧ sv > 1.0 ∧
      ∃ best rest old,
        PFV2.find_top_parking parking_spots dest_lat dest_lng 3 =
          best :: rest ∧
        s.last_recommended = some old ∧ nm = best.1.name ∧
        haversine s.lat s.lng best.1.lat best.1.lng > 200 ∧
        sv = old.price_per_hour * duration -
          best.1.price_per_hour * duration) ∧
    (∀ nm sv, PFV2.NavEvent.rerouteDeal nm sv ∈
        (PFV2.simulate_user_navigation_step parking_spots dest_lat dest_lng
          duration s t1).1 →
      t2 - t1 ≤ 10 →
      ∀ nm2 sv2, PFV2.NavEvent.rerouteDeal nm2 sv2 ∉
        (PFV2.simulate_user_navigation_step parking_spots dest_lat dest_lng
          duration
          (PFV2.simulate_user_navigation_step parking_spots dest_lat
            dest_lng duration s t1).2 t2).1) := by
  constructor
  · intro nm sv hmem
    obtain ⟨h10, hsv, -, hex⟩ := navStep_deal_analysis parking_spots dest_lat
      dest_lng duration s t1 nm sv hmem
    exact ⟨h10, hsv, hex⟩
  · intro nm sv hmem hle nm2 sv2 hmem2
    obtain ⟨-, -, hstate, -⟩ := navStep_deal_analysis parking_spots dest_lat
      dest_lng duration s t1 nm sv hmem
    obtain ⟨h10, -, -, -⟩ := navStep_deal_analysis parking_spots dest_lat
      dest_lng duration _ t2 nm2 sv2 hmem2
    rw [hstate] at h10
    linarith

theorem haversine_poles : haversine (-90) 0 90 0 = 6371000 * Real.pi := by
  have h1 : radians (90 - (-90) : ℝ) = Real.pi := by
    simp only [radians]; ring
  have h2 : radians (-90) = -(Real.pi / 2) := by simp only [radians]; ring
  have h3 : radians 90 = Real.pi / 2 := by simp only [radians]; ring
  have h4 : radians (0 - 0 : ℝ) = 0 := by simp [radians]
  simp only [haversine]
  rw [h1, h2, h3, h4]
  norm_num [Real.sin_pi_div_two, Real.cos_pi_div_two, Real.cos_neg,
    Real.sin_zero, Real.sqrt_zero, Real.sqrt_one, atan2, Real.pi_pos.le]
  ring

namespace PFV2

/-- The previously recommended, expensive spot (at the north pole). -/
def spotO : Spot := ⟨"Old Spot", 90, 0, 10, 50, 50⟩

/-- A much cheaper spot at the same place. -/
def spotB : Spot := ⟨"Bargain Spot", 90, 0, 1, 50, 50⟩

/-- Catalog for the throttle scenario, already in score order. -/
def navCatalog : List Spot := [spotB, spotO]

/-- Navigation state: user at the south pole, last recommended `spotO`,
last notification at time 0. -/
def navState0 : NavState := ⟨-90, 0, some spotO, 0⟩

theorem scored_nav : scored_spots navCatalog 90 0 =
    [(50, spotB), (500, spotO)] := by
  have h : scored_spots navCatalog 90 0 =
      [(score_parking spotB 90 0 0.5, spotB),
       (score_parking spotO 90 0 0.5, spotO)] := rfl
  rw [h]
  norm_num [score_parking, spotB, spotO, haversine_self]

theorem find_top_nav : find_top_parking navCatalog 90 0 3 =
    [(spotB, 50), (spotO, 500)] := by
  rw [find_top_parking_eq, scored_nav]
  rw [List.mergeSort_of_sorted]
  · rfl
  · refine List.pairwise_cons.mpr ⟨?_, List.pairwise_singleton _ _⟩
    intro b hb
    rw [List.mem_singleton] at hb
    subst hb
    norm_num

theorem navStep_nav_events :
    (simulate_user_navigation_step navCatalog 90 0 1 navState0 100).1 =
      [NavEvent.rerouteDeal spotB.name 9] := by
  have hdist : haversine (-90) 0 90 0 > 200 := by
    rw [haversine_poles]
    nlinarith [Real.pi_gt_three]
  simp only [simulate_user_navigation_step, find_top_nav, navState0]
  norm_num [hdist, spotB, spotO, navCatalog]
  simp

end PFV2

/-- Witness for C5: at time 100 (cooldown long expired) the cheap far-away
spot triggers a deal notification; at time 103, within the 10-unit
cooldown, a second deal notification is suppressed. -/
theorem throttled_deal_notifications_witness :
    PFV2.NavEvent.rerouteDeal PFV2.spotB.name 9 ∈
      (PFV2.simulate_user_navigation_step PFV2.navCatalog 90 0 1
        PFV2.navState0 100).1 ∧
    (103 : ℝ) - 100 ≤ 10 ∧
    (∀ nm2 sv2, PFV2.NavEvent.rerouteDeal nm2 sv2 ∉
      (PFV2.simulate_user_navigation_step PFV2.navCatalog 90 0 1
        (PFV2.simulate_user_navigation_step PFV2.navCatalog 90 0 1
          PFV2.navState0 100).2 103).1) := by
  have hmem : PFV2.NavEvent.rerouteDeal PFV2.spotB.name 9 ∈
      (PFV2.simulate_user_navigation_step PFV2.navCatalog 90 0 1
        PFV2.navState0 100).1 := by
    rw [PFV2.navStep_nav_events]
    exact List.mem_singleton_self _
  exact ⟨hmem, by norm_num,
    (throttled_deal_notifications PFV2.navCatalog 90 0 1 PFV2.navState0 100
      103).2 PFV2.spotB.name 9 hmem (by norm_num)⟩

/-- C9 counterexample: a request with a non-positive duration (-1) is not
rejected: `handle_parking_request` returns a recommendation (with a
negative estimated cost) and records it in the ledger. -/
theorem invalid_trip_not_rejected :
    (-1 : ℝ) ≤ 0 ∧
    RTS.handle_parking_request [] [RTS.garageB0, RTS.garageDup] [] "s" none
        ⟨RTS.RawField.num 0, RTS.RawField.num 0, RTS.RawField.num 0,
         RTS.RawField.num 0, RTS.RawField.num (-1)⟩ 100 =
      ([RTS.Event.recommendation "s" RTS.garageDup.name
          (RTS.garageDup.price_per_hour * (-1)) []],
       [("s", ⟨none, RTS.garageDup.name, 100, 0, 0, 0, 0, -1, 0⟩)]) := by
  refine ⟨by norm_num, ?_⟩
  have hdrop : (RTS.find_top_garages [] none [RTS.garageB0, RTS.garageDup]
      0 0 0 0 3).drop 1 = [] := by
    rw [RTS.find_top_garages_eq]
    have hs : RTS.scored_garages [] none [RTS.garageB0, RTS.garageDup]
        0 0 0 0 =
        [((RTS.score_parking RTS.garageDup 0 0 0 0
            (RTS.get_price_weight [] none)).1, RTS.garageDup,
          (RTS.score_parking RTS.garageDup 0 0 0 0
            (RTS.get_price_weight [] none)).2.1,
          (RTS.score_parking RTS.garageDup 0 0 0 0
            (RTS.get_price_weight [] none)).2.2)] := rfl
    rw [hs, List.mergeSort_singleton]
    rfl
  simp [RTS.handle_parking_request, RTS.parse_request, RTS.parseFloat,
    RTS.find_best_concrete, hdrop, RTS.upsert]

/-- C9 (amended): a trip request is rejected before scoring exactly when a
coordinate field is missing or fails float conversion, or the duration
field is present but fails float conversion; the rejection emits the
invalid-data error and leaves the ledger untouched.  No range validation
(finiteness, positive duration, preference bounds) is performed — see the
counterexample for a non-positive duration that is processed normally. -/
theorem invalid_request_rejected (users : RTS.UsersDb)
    (spots : List RTS.Garage) (ledger : RTS.Ledger) (sid : String)
    (username : Option String) (data : RTS.RequestData) (now : ℝ)
    (hbad : RTS.parse_request data = none) :
    RTS.handle_parking_request users spots ledger sid username data now =
      ([RTS.Event.invalidData sid], ledger) := by
  simp only [RTS.handle_parking_request, hbad]

/-- Witness for the amended C9: a request with a malformed user latitude is
rejected with the invalid-data error and nothing is recorded. -/
theorem invalid_request_rejected_witness :
    RTS.parse_request ⟨RTS.RawField.malformed, RTS.RawField.num 0,
        RTS.RawField.num 0, RTS.RawField.num 0, RTS.RawField.absent⟩ =
      none ∧
    RTS.handle_parking_request [] [RTS.garageA] [] "s" none
        ⟨RTS.RawField.malformed, RTS.RawField.num 0, RTS.RawField.num 0,
         RTS.RawField.num 0, RTS.RawField.absent⟩ 5 =
      ([RTS.Event.invalidData "s"], []) :=
  ⟨rfl, invalid_request_rejected [] [RTS.garageA] [] "s" none
    ⟨RTS.RawField.malformed, RTS.RawField.num 0, RTS.RawField.num 0,
     RTS.RawField.num 0, RTS.RawField.absent⟩ 5 rfl⟩

/-- C10: a request whose payload omits the duration field is not rejected:
parsing defaults the duration to 1, the request is processed exactly as if
duration 1 had been sent, and on success every estimated cost (best and
alternatives) is price-per-hour × 1 and the stored ledger entry carries
duration 1. -/
theorem missing_duration_defaults (users : RTS.UsersDb)
    (spots : List RTS.Garage) (ledger : RTS.Ledger) (sid : String)
    (username : Option String) (a b c d now : ℝ) :
    RTS.parse_request ⟨RTS.RawField.num a, RTS.RawField.num b,
        RTS.RawField.num c, RTS.RawField.num d, RTS.RawField.absent⟩ =
      some (a, b, c, d, 1) ∧
    RTS.handle_parking_request users spots ledger sid username
        ⟨RTS.RawField.num a, RTS.RawField.num b, RTS.RawField.num c,
         RTS.RawField.num d, RTS.RawField.absent⟩ now =
      RTS.handle_parking_request users spots ledger sid username
        ⟨RTS.RawField.num a, RTS.RawField.num b, RTS.RawField.num c,
         RTS.RawField.num d, RTS.RawField.num 1⟩ now ∧
    (∀ g dr wk, RTS.find_best_garage users username spots a b c d =
        some (g, dr, wk) →
      RTS.handle_parking_request users spots ledger sid username
          ⟨RTS.RawField.num a, RTS.RawField.num b, RTS.RawField.num c,
           RTS.RawField.num d, RTS.RawField.absent⟩ now =
        ([RTS.Event.recommendation sid g.name (g.price_per_hour * 1)
            (((RTS.find_top_garages users username spots a b c d 3).drop
                1).map fun t => (t.2.1.name, t.2.1.price_per_hour * 1))],
         RTS.upsert ledger sid ⟨username, g.name, now, a, b, c, d, 1, wk⟩)) := by
  refine ⟨rfl, rfl, ?_⟩
  intro g dr wk h
  simp only [RTS.handle_parking_request, RTS.parse_request, RTS.parseFloat, h]

/-- Witness for C10: the degenerate trip at the origin with no duration
field: the recommendation and ledger entry use duration 1. -/
theorem missing_duration_defaults_witness :
    RTS.find_best_garage [] none [RTS.garageB0, RTS.garageDup] 0 0 0 0 =
      some (RTS.garageDup, 0, 0) ∧
    RTS.parse_request ⟨RTS.RawField.num 0, RTS.RawField.num 0,
        RTS.RawField.num 0, RTS.RawField.num 0, RTS.RawField.absent⟩ =
      some (0, 0, 0, 0, 1) ∧
    RTS.handle_parking_request [] [RTS.garageB0, RTS.garageDup] [] "s" none
        ⟨RTS.RawField.num 0, RTS.RawField.num 0, RTS.RawField.num 0,
         RTS.RawField.num 0, RTS.RawField.absent⟩ 7 =
      RTS.handle_parking_request [] [RTS.garageB0, RTS.garageDup] [] "s" none
        ⟨RTS.RawField.num 0, RTS.RawField.num 0, RTS.RawField.num 0,
         RTS.RawField.num 0, RTS.RawField.num 1⟩ 7 ∧
    RTS.handle_parking_request [] [RTS.garageB0, RTS.garageDup] [] "s" none
        ⟨RTS.RawField.num 0, RTS.RawField.num 0, RTS.RawField.num 0,
         RTS.RawField.num 0, RTS.RawField.absent⟩ 7 =
      ([RTS.Event.recommendation "s" RTS.garageDup.name
          (RTS.garageDup.price_per_hour * 1)
          (((RTS.find_top_garages [] none [RTS.garageB0, RTS.garageDup]
              0 0 0 0 3).drop 1).map
            fun t => (t.2.1.name, t.2.1.price_per_hour * 1))],
       RTS.upsert [] "s" ⟨none, RTS.garageDup.name, 7, 0, 0, 0, 0, 1, 0⟩) := by
  have h := missing_duration_defaults [] [RTS.garageB0, RTS.garageDup] []
    "s" none 0 0 0 0 7
  exact ⟨RTS.find_best_concrete, h.1, h.2.1,
    h.2.2 RTS.garageDup 0 0 RTS.find_best_concrete⟩
